import Mathlib

/-!
Verification development for the chunk-addressed procedural biome/terrain
generation subsystem of the repository (src/voxel_world/biomes/mod.rs).

Shallow embedding conventions:
* Rust u32 indices are modelled as Nat (all index arithmetic in this module
  stays far below 2^32, so no wrapping occurs).
* Rust i32 chunk coordinates are modelled as Int.
* Rust f32/f64 scalars (noise attributes, heights, level constants) are
  modelled as Rat; every float computation the claims touch is exact integer
  or decimal-literal arithmetic well inside the representable range.
* The Worley noise primitive from the external noise crate is treated as a
  black-box pure sampler: definitions are parametrised by an arbitrary
  function worley : Int -> Rat -> Rat -> Rat taking the seed and a 2D
  world-space point to a value.  The PlaneMapBuilder grid construction,
  which the module does rely on, is embedded explicitly.
* The in-place mutation of the voxel buffer (Rust &mut Vec<Voxel>) is
  embedded by explicit state passing: each generator step takes the buffer
  and returns the updated buffer.
-/

/-- Modelled from the spec: the fixed chunk edge length.  The constant
CHUNK_SIZE lives outside the provided sources; the spec fixes the edge
length to 32 in every concrete example (height computation, single-column
scenario).  Rust type i32. -/
def CHUNK_SIZE : Int := 32

/-- Modelled from the spec: the same edge length at the u32 type used by the
ndshape shape aliases. -/
def CHUNK_SIZE_U32 : Nat := 32

/-- Modelled from the spec: a 3D integer coordinate identifying a chunk
position in chunk-space (the source wraps an IVec3; equality is
structural). -/
structure ChunkKey where
  x : Int
  y : Int
  z : Int
deriving DecidableEq, Repr

/-- Modelled from the spec: one unit cell's material/content.  The exact
catalogue is external to this subsystem; the claims only move whole buffers
around, so a single material id field suffices. -/
structure Voxel where
  id : Nat
deriving DecidableEq, Repr

/-- The closed set of biome variants, one per generator implementation
registered in the module (BasicLandBiomes, DryLandBiomes, SnowLandBiomes,
SandLandBiomes, BuleLandBoimes). -/
inductive Biome where
  | BasicLand
  | DryLand
  | SnowLand
  | SandLand
  | BlueLand
deriving DecidableEq, Repr

/-- ndshape ConstShape3u32 with all three dimensions e, delinearize:
strides are [1, e, e*e]; z is the quotient by e*e, the remainder splits
into y and x.  Generic in the edge so the bijection can be stated for any
edge length. -/
def delinearize3 (e i : Nat) : Nat × Nat × Nat :=
  let z := i / (e * e)
  let r := i - z * (e * e)
  let y := r / e
  let x := r % e
  (x, y, z)

/-- ndshape ConstShape3u32 linearize: dot product with the strides
[1, e, e*e]. -/
def linearize3 (e : Nat) (p : Nat × Nat × Nat) : Nat :=
  p.1 + e * p.2.1 + e * e * p.2.2

/-- ndshape ConstShape2u32 delinearize: strides [1, e]. -/
def delinearize2 (e i : Nat) : Nat × Nat :=
  (i % e, i / e)

/-- ndshape ConstShape2u32 linearize. -/
def linearize2 (e : Nat) (p : Nat × Nat) : Nat :=
  p.1 + e * p.2

/-- SampleShape = ConstShape3u32 of CHUNK_SIZE_U32 in each dimension:
delinearize. -/
def SampleShape.delinearize (i : Nat) : Nat × Nat × Nat :=
  delinearize3 CHUNK_SIZE_U32 i

/-- SampleShape linearize. -/
def SampleShape.linearize (p : Nat × Nat × Nat) : Nat :=
  linearize3 CHUNK_SIZE_U32 p

/-- PanleShap = ConstShape2u32 of CHUNK_SIZE_U32: delinearize. -/
def PanleShap.delinearize (i : Nat) : Nat × Nat :=
  delinearize2 CHUNK_SIZE_U32 i

/-- PanleShap linearize. -/
def PanleShap.linearize (p : Nat × Nat) : Nat :=
  linearize2 CHUNK_SIZE_U32 p

/-- get_generator_by_atrr: the ordered if-chain mapping a scalar attribute
to a biome generator.  The f32 comparisons against the decimal literals
0.1, 0.4, 0.6, 0.8 are embedded as exact Rat comparisons. -/
def get_generator_by_atrr (data : Rat) : Biome :=
  if data < 0.1 then Biome.BasicLand
  else if data < 0.4 then Biome.DryLand
  else if data < 0.6 then Biome.SnowLand
  else if data < 0.8 then Biome.SandLand
  else Biome.BlueLand

/-- The noise crate PlaneMapBuilder build step: an e-by-e grid (row-major,
index x + width * row) of samples of the point function f, where grid cell
(x, row) is evaluated at
  (x0 + ((x1 - x0) / width) * x, z0 + ((z1 - z0) / height) * row). -/
def planeMapBuild (f : Rat → Rat → Rat) (w h : Nat) (x0 x1 z0 z1 : Rat) : List Rat :=
  (List.range (w * h)).map fun i =>
    f (x0 + ((x1 - x0) / (w : Rat)) * ((i % w : Nat) : Rat))
      (z0 + ((z1 - z0) / (h : Rat)) * ((i / w : Nat) : Rat))

/-- biomes_noise: builds the configured Worley sampler from the seed (the
distance function, return type and frequency are fixed configuration baked
into the abstract sampler worley), then samples the CHUNK_SIZE by
CHUNK_SIZE plane whose world-space window is offset by
chunk_key.x * CHUNK_SIZE and chunk_key.z * CHUNK_SIZE. -/
def biomes_noise (worley : Int → Rat → Rat → Rat) (chunk_key : ChunkKey)
    (seed : Int) : List Rat :=
  let x_offset : Rat := ((chunk_key.x * CHUNK_SIZE : Int) : Rat)
  let z_offset : Rat := ((chunk_key.z * CHUNK_SIZE : Int) : Rat)
  planeMapBuild (worley seed) CHUNK_SIZE_U32 CHUNK_SIZE_U32
    x_offset (x_offset + ((CHUNK_SIZE : Int) : Rat))
    z_offset (z_offset + ((CHUNK_SIZE : Int) : Rat))

/-- The type of the one required operation of the BiomesGenerator trait,
gen_land_with_info, dispatched on the biome variant.  The per-variant
bodies live in the biome submodules outside the provided sources, so the
whole development is parametrised over this dispatch function.  Arguments
follow the trait signature: chunk key, voxel buffer, chunk linear index,
plane linear index, height, local xyz. -/
def GenLandWithInfo : Type :=
  Biome → ChunkKey → List Voxel → Nat → Nat → Rat → Nat × Nat × Nat → List Voxel

/-- The derived trait operation gen_land: computes base_y as
(chunk_key.y * CHUNK_SIZE) cast to float, delinearizes the chunk index to
local (x, y, z), takes height = base_y + y, and delegates to
gen_land_with_info. -/
def gen_land (gli : GenLandWithInfo) (b : Biome) (chunk_key : ChunkKey)
    (voxels : List Voxel) (chunk_index plane_index : Nat) : List Voxel :=
  let base_y : Rat := ((chunk_key.y * CHUNK_SIZE : Int) : Rat)
  let p := SampleShape.delinearize chunk_index
  let height : Rat := base_y + (p.2.1 : Rat)
  gli b chunk_key voxels chunk_index plane_index height p

/-- biomes_generate: returns the buffer unchanged when the surface index
list is empty; otherwise samples the noise field once and folds over the
surface indices, each step delinearizing the 3D index, linearizing the
(x, z) pair, reading the attribute, selecting the generator and invoking
its gen_land.  The Rust Vec indexing noise[index_2d] is embedded as getD
(its in-bounds behaviour; in-boundedness is proved separately). -/
def biomes_generate (worley : Int → Rat → Rat → Rat) (gli : GenLandWithInfo)
    (chunk_key : ChunkKey) (seed : Int) (suface_index : List Nat)
    (voxels : List Voxel) : List Voxel :=
  if suface_index.length = 0 then voxels
  else
    let noise := biomes_noise worley chunk_key seed
    suface_index.foldl
      (fun vx index =>
        let p := SampleShape.delinearize index
        let index_2d := PanleShap.linearize (p.1, p.2.2)
        let atrr := noise.getD index_2d 0
        let generator := get_generator_by_atrr atrr
        gen_land gli generator chunk_key vx index index_2d)
      voxels

/-- The attribute lookup biomes_generate performs for one surface index:
delinearize the 3D index, linearize the (x, z) pair, read the noise field
there. -/
def column_attr (noise : List Rat) (index : Nat) : Rat :=
  noise.getD
    (PanleShap.linearize
      ((SampleShape.delinearize index).1, (SampleShape.delinearize index).2.2)) 0

/-- Modelled from the spec (section 4.5 wording): the per-column work of
the orchestrator — derive the planar index via the Coordinate Shape
Mapper, look up the attribute value, select a generator, and invoke
gen_land for that column. -/
def orchestrate_column (noise : List Rat) (gli : GenLandWithInfo)
    (chunk_key : ChunkKey) (voxels : List Voxel) (index : Nat) : List Voxel :=
  let p := SampleShape.delinearize index
  let index_2d := PanleShap.linearize (p.1, p.2.2)
  gen_land gli (get_generator_by_atrr (column_attr noise index))
    chunk_key voxels index index_2d

/-- Modelled from the spec (section 8, cross-chunk noise continuity): a
single noise field sampled over the combined world-space rectangle of
chunk keys (0,0,0) and (1,0,0) — twice the edge wide along x, one edge
deep along z, built by the same plane-map grid construction. -/
def combined_field (worley : Int → Rat → Rat → Rat) (seed : Int) : List Rat :=
  planeMapBuild (worley seed) (2 * CHUNK_SIZE_U32) CHUNK_SIZE_U32
    0 ((2 * CHUNK_SIZE : Int) : Rat) 0 ((CHUNK_SIZE : Int) : Rat)

/-- Element characterization of the plane-map grid: entry i samples the
point function at the grid cell (i mod width, i div width). -/
theorem planeMapBuild_get (f : Rat → Rat → Rat) (w h : Nat) (x0 x1 z0 z1 : Rat)
    (i : Nat) (hi : i < w * h) :
    (planeMapBuild f w h x0 x1 z0 z1).get? i =
      some (f (x0 + ((x1 - x0) / (w : Rat)) * ((i % w : Nat) : Rat))
              (z0 + ((z1 - z0) / (h : Rat)) * ((i / w : Nat) : Rat))) := by
  unfold planeMapBuild
  rw [List.get?_map, List.get?_range hi]
  rfl

/-- The plane-map grid always has exactly width * height entries. -/
theorem planeMapBuild_length (f : Rat → Rat → Rat) (w h : Nat)
    (x0 x1 z0 z1 : Rat) :
    (planeMapBuild f w h x0 x1 z0 z1).length = w * h := by
  unfold planeMapBuild
  rw [List.length_map, List.length_range]

/-- biomes_noise is the plane-map grid of the seeded sampler over the
chunk's world-space window. -/
theorem biomes_noise_eq (worley : Int → Rat → Rat → Rat)
    (chunk_key : ChunkKey) (seed : Int) :
    biomes_noise worley chunk_key seed =
      planeMapBuild (worley seed) CHUNK_SIZE_U32 CHUNK_SIZE_U32
        ((chunk_key.x * CHUNK_SIZE : Int) : Rat)
        (((chunk_key.x * CHUNK_SIZE : Int) : Rat) + ((CHUNK_SIZE : Int) : Rat))
        ((chunk_key.z * CHUNK_SIZE : Int) : Rat)
        (((chunk_key.z * CHUNK_SIZE : Int) : Rat) + ((CHUNK_SIZE : Int) : Rat)) :=
  rfl

/-- The noise field has exactly edge * edge entries. -/
theorem biomes_noise_length (worley : Int → Rat → Rat → Rat)
    (chunk_key : ChunkKey) (seed : Int) :
    (biomes_noise worley chunk_key seed).length =
      CHUNK_SIZE_U32 * CHUNK_SIZE_U32 := by
  rw [biomes_noise_eq, planeMapBuild_length]

/-- Element characterization of the noise field: entry i is the fixed pure
sampler evaluated at the world-space point determined solely by the seed,
chunk_key.x, chunk_key.z and i (the grid step is one world unit, since the
window extent equals the grid size). -/
theorem biomes_noise_get (worley : Int → Rat → Rat → Rat)
    (chunk_key : ChunkKey) (seed : Int) (i : Nat)
    (hi : i < CHUNK_SIZE_U32 * CHUNK_SIZE_U32) :
    (biomes_noise worley chunk_key seed).get? i =
      some (worley seed
        (((chunk_key.x * CHUNK_SIZE : Int) : Rat) + ((i % CHUNK_SIZE_U32 : Nat) : Rat))
        (((chunk_key.z * CHUNK_SIZE : Int) : Rat) + ((i / CHUNK_SIZE_U32 : Nat) : Rat))) := by
  rw [biomes_noise_eq, planeMapBuild_get _ _ _ _ _ _ _ i hi]
  congr 2 <;>
    · rw [add_sub_cancel_left]
      norm_num [CHUNK_SIZE, CHUNK_SIZE_U32]

/-- SEE_LEVEL, the sea-level constant: -60. + 76. -/
def SEE_LEVEL : Rat := -60 + 76

/-- MOUNTAIN_LEVEL, the mountain-line constant: -60. + 100. -/
def MOUNTAIN_LEVEL : Rat := -60 + 100

/-- SNOW_LEVEL, the snow-line constant: -60. + 100. -/
def SNOW_LEVEL : Rat := -60 + 100

/-- Linearizing the 3D delinearization of any index gives the index back
(the u32 subtraction in the ndshape delinearize never underflows since
the quotient times the stride is at most the index). -/
theorem linearize3_delinearize3 (e i : Nat) :
    linearize3 e (delinearize3 e i) = i := by
  show (i - i / (e * e) * (e * e)) % e
      + e * ((i - i / (e * e) * (e * e)) / e)
      + e * e * (i / (e * e)) = i
  rw [Nat.mod_add_div]
  have hle : i / (e * e) * (e * e) ≤ i := Nat.div_mul_le_self i (e * e)
  rw [Nat.mul_comm (e * e) (i / (e * e))]
  generalize i / (e * e) * (e * e) = A at hle ⊢
  omega

/-- Delinearizing the 3D linearization of in-range coordinates gives the
coordinates back. -/
theorem delinearize3_linearize3 (e x y z : Nat)
    (hx : x < e) (hy : y < e) (hz : z < e) :
    delinearize3 e (linearize3 e (x, y, z)) = (x, y, z) := by
  have he : 0 < e := Nat.lt_of_le_of_lt (Nat.zero_le x) hx
  have hee : 0 < e * e := Nat.mul_pos he he
  have hxy : x + e * y < e * e := by
    have h2 := Nat.mul_le_mul_left e (Nat.succ_le_of_lt hy)
    rw [Nat.mul_succ] at h2
    omega
  have hq : (x + e * y + e * e * z) / (e * e) = z := by
    rw [Nat.add_mul_div_left _ _ hee, Nat.div_eq_of_lt hxy, Nat.zero_add]
  show ((x + e * y + e * e * z - (x + e * y + e * e * z) / (e * e) * (e * e)) % e,
        (x + e * y + e * e * z - (x + e * y + e * e * z) / (e * e) * (e * e)) / e,
        (x + e * y + e * e * z) / (e * e)) = (x, y, z)
  rw [hq]
  have hr : x + e * y + e * e * z - z * (e * e) = x + e * y := by
    rw [Nat.mul_comm z (e * e), Nat.add_sub_cancel]
  rw [hr, Nat.add_mul_mod_self_left, Nat.mod_eq_of_lt hx,
    Nat.add_mul_div_left _ _ he, Nat.div_eq_of_lt hx, Nat.zero_add]

/-- Linearizing the 2D delinearization of any index gives the index back. -/
theorem linearize2_delinearize2 (e i : Nat) :
    linearize2 e (delinearize2 e i) = i := by
  show i % e + e * (i / e) = i
  exact Nat.mod_add_div i e

/-- Delinearizing the 2D linearization of in-range coordinates gives the
coordinates back. -/
theorem delinearize2_linearize2 (e x z : Nat) (hx : x < e) (hz : z < e) :
    delinearize2 e (linearize2 e (x, z)) = (x, z) := by
  have he : 0 < e := Nat.lt_of_le_of_lt (Nat.zero_le x) hx
  show ((x + e * z) % e, (x + e * z) / e) = (x, z)
  rw [Nat.add_mul_mod_self_left, Nat.mod_eq_of_lt hx,
    Nat.add_mul_div_left _ _ he, Nat.div_eq_of_lt hx, Nat.zero_add]

/-- C5: at the fixed edge length CHUNK_SIZE_U32 the coordinate
linearization is bijective: the 3D round trips hold on the chunk buffer
range and coordinate cube, and the 2D round trips hold on the planar
range and square. -/
theorem C5_linearization_bijective :
    (∀ i, i < CHUNK_SIZE_U32 ^ 3 →
        SampleShape.linearize (SampleShape.delinearize i) = i) ∧
    (∀ x y z, x < CHUNK_SIZE_U32 → y < CHUNK_SIZE_U32 → z < CHUNK_SIZE_U32 →
        SampleShape.delinearize (SampleShape.linearize (x, y, z)) = (x, y, z)) ∧
    (∀ i, i < CHUNK_SIZE_U32 ^ 2 →
        PanleShap.linearize (PanleShap.delinearize i) = i) ∧
    (∀ x z, x < CHUNK_SIZE_U32 → z < CHUNK_SIZE_U32 →
        PanleShap.delinearize (PanleShap.linearize (x, z)) = (x, z)) := by
  refine ⟨fun i _ => linearize3_delinearize3 CHUNK_SIZE_U32 i,
    fun x y z hx hy hz => delinearize3_linearize3 CHUNK_SIZE_U32 x y z hx hy hz,
    fun i _ => linearize2_delinearize2 CHUNK_SIZE_U32 i,
    fun x z hx hz => delinearize2_linearize2 CHUNK_SIZE_U32 x z hx hz⟩

/-- Witness for C5 at concrete inputs. -/
theorem C5_linearization_bijective_witness :
    SampleShape.linearize (SampleShape.delinearize 12345) = 12345 ∧
    SampleShape.delinearize (SampleShape.linearize (5, 7, 11)) = (5, 7, 11) ∧
    PanleShap.linearize (PanleShap.delinearize 1000) = 1000 ∧
    PanleShap.delinearize (PanleShap.linearize (13, 29)) = (13, 29) :=
  ⟨C5_linearization_bijective.1 12345 (by decide),
   C5_linearization_bijective.2.1 5 7 11 (by decide) (by decide) (by decide),
   C5_linearization_bijective.2.2.1 1000 (by decide),
   C5_linearization_bijective.2.2.2 13 29 (by decide) (by decide)⟩

/-- C1: the Biome Selector realizes the ordered half-open bands: below 0.1
BasicLand, [0.1, 0.4) DryLand, [0.4, 0.6) SnowLand, [0.6, 0.8) SandLand,
and at or above 0.8 BlueLand; being a total function it returns exactly
one variant, and the boundary value 0.1 resolves to the upper band
DryLand. -/
theorem C1_selector_bands (a : Rat) :
    (a < 0.1 → get_generator_by_atrr a = Biome.BasicLand) ∧
    (0.1 ≤ a → a < 0.4 → get_generator_by_atrr a = Biome.DryLand) ∧
    (0.4 ≤ a → a < 0.6 → get_generator_by_atrr a = Biome.SnowLand) ∧
    (0.6 ≤ a → a < 0.8 → get_generator_by_atrr a = Biome.SandLand) ∧
    (0.8 ≤ a → get_generator_by_atrr a = Biome.BlueLand) ∧
    get_generator_by_atrr 0.1 = Biome.DryLand := by
  refine ⟨?_, ?_, ?_, ?_, ?_, ?_⟩ <;>
    · intros
      unfold get_generator_by_atrr
      split_ifs <;> first | rfl | linarith | norm_num at *

/-- Witness for C1: one value in each band, discharging every hypothesis
of the band characterization at a concrete attribute. -/
theorem C1_selector_bands_witness :
    get_generator_by_atrr 0.05 = Biome.BasicLand ∧
    get_generator_by_atrr 0.1 = Biome.DryLand ∧
    get_generator_by_atrr 0.4 = Biome.SnowLand ∧
    get_generator_by_atrr 0.6 = Biome.SandLand ∧
    get_generator_by_atrr 0.8 = Biome.BlueLand :=
  ⟨(C1_selector_bands 0.05).1 (by norm_num),
   (C1_selector_bands 0.1).2.1 (by norm_num) (by norm_num),
   (C1_selector_bands 0.4).2.2.1 (by norm_num) (by norm_num),
   (C1_selector_bands 0.6).2.2.2.1 (by norm_num) (by norm_num),
   (C1_selector_bands 0.8).2.2.2.2.1 (by norm_num)⟩

/-- C3: gen_land computes the height as chunk_key.y * edge + local_y and
the local coordinates by delinearizing the 3D index, and delegates to
gen_land_with_info with exactly those values; at chunk key (0, 2, 0),
edge 32 and chunk index 96 (whose local coordinates are (0, 3, 0), so
local y = 3) the height passed on is 2 * 32 + 3 = 67. -/
theorem C3_gen_land_height :
    (∀ (gli : GenLandWithInfo) (b : Biome) (key : ChunkKey)
        (voxels : List Voxel) (ci pi : Nat),
        gen_land gli b key voxels ci pi =
          gli b key voxels ci pi
            (((key.y * CHUNK_SIZE : Int) : Rat)
              + (((SampleShape.delinearize ci).2.1 : Nat) : Rat))
            (SampleShape.delinearize ci)) ∧
    (∀ (gli : GenLandWithInfo) (b : Biome) (voxels : List Voxel) (pi : Nat),
        SampleShape.delinearize 96 = (0, 3, 0) ∧
        gen_land gli b ⟨0, 2, 0⟩ voxels 96 pi =
          gli b ⟨0, 2, 0⟩ voxels 96 pi 67 (0, 3, 0)) := by
  constructor
  · intro gli b key voxels ci pi
    rfl
  · intro gli b voxels pi
    constructor
    · rfl
    · have h1 : (((2 : Int) * CHUNK_SIZE : Int) : Rat) + ((3 : Nat) : Rat) = 67 := by
        norm_num [CHUNK_SIZE]
      have h2 : SampleShape.delinearize 96 = (0, 3, 0) := rfl
      show gli b ⟨0, 2, 0⟩ voxels 96 pi
          (((2 * CHUNK_SIZE : Int) : Rat) + ((3 : Nat) : Rat))
          (SampleShape.delinearize 96) =
        gli b ⟨0, 2, 0⟩ voxels 96 pi 67 (0, 3, 0)
      rw [h1, h2]

/-- C9: the mountain-level and snow-level constants are numerically
identical, both equal to 40, and both lie strictly above the sea-level
constant, which equals 16. -/
theorem C9_level_constants :
    MOUNTAIN_LEVEL = SNOW_LEVEL ∧ MOUNTAIN_LEVEL = 40 ∧ SNOW_LEVEL = 40 ∧
      SEE_LEVEL = 16 ∧ SEE_LEVEL < MOUNTAIN_LEVEL ∧ SEE_LEVEL < SNOW_LEVEL := by
  refine ⟨rfl, by norm_num [MOUNTAIN_LEVEL], by norm_num [SNOW_LEVEL],
    by norm_num [SEE_LEVEL], ?_, ?_⟩ <;>
    norm_num [SEE_LEVEL, MOUNTAIN_LEVEL, SNOW_LEVEL]

/-- C4: with an empty surface-index list biomes_generate returns the voxel
buffer unchanged, and its result does not depend on the noise sampler at
all (any two samplers give the same result), reflecting that the early
return happens before the single noise-sampling call. -/
theorem C4_empty_noop (worley worley2 : Int → Rat → Rat → Rat)
    (gli : GenLandWithInfo) (chunk_key : ChunkKey) (seed : Int)
    (voxels : List Voxel) :
    biomes_generate worley gli chunk_key seed [] voxels = voxels ∧
    biomes_generate worley gli chunk_key seed [] voxels =
      biomes_generate worley2 gli chunk_key seed [] voxels := by
  constructor <;> simp [biomes_generate]

/-- C2: for a non-empty surface-index list, biomes_generate equals the
fold of the per-column orchestration step over the single noise field
sampled once for the whole chunk (each step delinearizes the 3D index,
linearizes its (x, z) pair, looks up the attribute at that planar index,
selects the generator by attribute, and invokes its gen_land with the
chunk key, buffer, 3D index and planar index); moreover the result
depends on the sampler only through that one chunk-wide field. -/
theorem C2_orchestrator (worley : Int → Rat → Rat → Rat)
    (gli : GenLandWithInfo) (chunk_key : ChunkKey) (seed : Int)
    (suface_index : List Nat) (voxels : List Voxel)
    (h : suface_index ≠ []) :
    biomes_generate worley gli chunk_key seed suface_index voxels =
      suface_index.foldl
        (orchestrate_column (biomes_noise worley chunk_key seed) gli chunk_key)
        voxels ∧
    ∀ worley2 : Int → Rat → Rat → Rat,
      biomes_noise worley chunk_key seed = biomes_noise worley2 chunk_key seed →
      biomes_generate worley gli chunk_key seed suface_index voxels =
        biomes_generate worley2 gli chunk_key seed suface_index voxels := by
  have hlen : ¬ suface_index.length = 0 := by
    simpa [List.length_eq_zero] using h
  constructor
  · show (if suface_index.length = 0 then voxels
        else suface_index.foldl _ voxels) = _
    rw [if_neg hlen]
    rfl
  · intro worley2 hnoise
    show (if suface_index.length = 0 then voxels
        else suface_index.foldl _ voxels) =
      (if suface_index.length = 0 then voxels
        else suface_index.foldl _ voxels)
    rw [if_neg hlen, if_neg hlen, hnoise]

/-- Witness for C2 at a concrete call: one surface index, the constant
sampler, a generator dispatch that leaves the buffer unchanged. -/
theorem C2_orchestrator_witness :
    biomes_generate (fun _ _ _ => 0)
        (fun _ _ v _ _ _ _ => v : GenLandWithInfo) ⟨0, 0, 0⟩ 0 [0] [] =
      [0].foldl
        (orchestrate_column (biomes_noise (fun _ _ _ => 0) ⟨0, 0, 0⟩ 0)
          (fun _ _ v _ _ _ _ => v : GenLandWithInfo) ⟨0, 0, 0⟩) [] :=
  (C2_orchestrator (fun _ _ _ => 0) (fun _ _ v _ _ _ _ => v) ⟨0, 0, 0⟩ 0 [0] []
    (by simp)).1

/-- C6: the Noise Field Sampler is deterministic and stateless — the full
edge-by-edge field is characterized element-for-element as a fixed pure
function of the seed and the chunk key alone (no call order, prior call,
or mutable state enters), so two independent calls with the same seed and
key return identical arrays. -/
theorem C6_noise_deterministic (worley : Int → Rat → Rat → Rat)
    (chunk_key : ChunkKey) (seed : Int) :
    (biomes_noise worley chunk_key seed).length =
      CHUNK_SIZE_U32 * CHUNK_SIZE_U32 ∧
    ∀ i, i < CHUNK_SIZE_U32 * CHUNK_SIZE_U32 →
      (biomes_noise worley chunk_key seed).get? i =
        some (worley seed
          (((chunk_key.x * CHUNK_SIZE : Int) : Rat)
            + ((i % CHUNK_SIZE_U32 : Nat) : Rat))
          (((chunk_key.z * CHUNK_SIZE : Int) : Rat)
            + ((i / CHUNK_SIZE_U32 : Nat) : Rat))) :=
  ⟨biomes_noise_length worley chunk_key seed,
   fun i hi => biomes_noise_get worley chunk_key seed i hi⟩

/-- Witness for C6 at a concrete sampler, key, seed and element. -/
theorem C6_noise_deterministic_witness :
    (biomes_noise (fun s x z => (s : Rat) + x + z) ⟨1, 2, 3⟩ 7).get? 33 =
      some (((7 : Int) : Rat) + (((1 * CHUNK_SIZE : Int) : Rat) + ((1 : Nat) : Rat))
        + (((3 * CHUNK_SIZE : Int) : Rat) + ((1 : Nat) : Rat))) :=
  (C6_noise_deterministic (fun s x z => (s : Rat) + x + z) ⟨1, 2, 3⟩ 7).2
    33 (by decide)

/-- C7: under the precondition that a surface index is in range for the
chunk buffer, the attribute lookup cannot go out of bounds: the noise
field has exactly edge * edge entries, the planar index derived from the
3D index is below edge * edge, and the lookup at that planar index
succeeds. -/
theorem C7_lookup_in_bounds (worley : Int → Rat → Rat → Rat)
    (chunk_key : ChunkKey) (seed : Int) :
    (biomes_noise worley chunk_key seed).length =
      CHUNK_SIZE_U32 * CHUNK_SIZE_U32 ∧
    ∀ index, index < CHUNK_SIZE_U32 * CHUNK_SIZE_U32 * CHUNK_SIZE_U32 →
      PanleShap.linearize
          ((SampleShape.delinearize index).1,
            (SampleShape.delinearize index).2.2) <
        CHUNK_SIZE_U32 * CHUNK_SIZE_U32 ∧
      ((biomes_noise worley chunk_key seed).get?
          (PanleShap.linearize
            ((SampleShape.delinearize index).1,
              (SampleShape.delinearize index).2.2))).isSome := by
  refine ⟨biomes_noise_length worley chunk_key seed, fun index hindex => ?_⟩
  have hx : (SampleShape.delinearize index).1 < CHUNK_SIZE_U32 := by
    show (index - index / (CHUNK_SIZE_U32 * CHUNK_SIZE_U32)
        * (CHUNK_SIZE_U32 * CHUNK_SIZE_U32)) % CHUNK_SIZE_U32 < CHUNK_SIZE_U32
    exact Nat.mod_lt _ (by decide)
  have hz : (SampleShape.delinearize index).2.2 < CHUNK_SIZE_U32 := by
    show index / (CHUNK_SIZE_U32 * CHUNK_SIZE_U32) < CHUNK_SIZE_U32
    exact Nat.div_lt_of_lt_mul hindex
  have hbound : PanleShap.linearize
      ((SampleShape.delinearize index).1,
        (SampleShape.delinearize index).2.2) <
      CHUNK_SIZE_U32 * CHUNK_SIZE_U32 := by
    show (SampleShape.delinearize index).1
        + CHUNK_SIZE_U32 * (SampleShape.delinearize index).2.2 <
      CHUNK_SIZE_U32 * CHUNK_SIZE_U32
    have h2 := Nat.mul_le_mul_left CHUNK_SIZE_U32 (Nat.succ_le_of_lt hz)
    rw [Nat.mul_succ] at h2
    omega
  have hlt : PanleShap.linearize
      ((SampleShape.delinearize index).1,
        (SampleShape.delinearize index).2.2) <
      (biomes_noise worley chunk_key seed).length := by
    rw [biomes_noise_length worley chunk_key seed]
    exact hbound
  refine ⟨hbound, ?_⟩
  rw [List.get?_eq_getElem?, List.getElem?_eq_getElem hlt]
  rfl

/-- Witness for C7 at a concrete sampler, key, seed and surface index. -/
theorem C7_lookup_in_bounds_witness :
    PanleShap.linearize
        ((SampleShape.delinearize 32767).1,
          (SampleShape.delinearize 32767).2.2) <
      CHUNK_SIZE_U32 * CHUNK_SIZE_U32 ∧
    ((biomes_noise (fun _ _ _ => 0) ⟨0, 0, 0⟩ 42).get?
        (PanleShap.linearize
          ((SampleShape.delinearize 32767).1,
            (SampleShape.delinearize 32767).2.2))).isSome :=
  (C7_lookup_in_bounds (fun _ _ _ => 0) ⟨0, 0, 0⟩ 42).2 32767 (by decide)

/-- C8: the sampling window of biomes_noise for chunk key K starts at
K.x * edge and K.z * edge with extent edge on each axis, with the same
seeded sampler for every chunk; hence along the shared boundary of chunk
keys (0,0,0) and (1,0,0) (world columns x = 31 and x = 32, row j), the
chunk fields agree exactly with the single field sampled over the
combined two-chunk rectangle at the same world coordinates — both reduce
to the same sampler value at that world point. -/
theorem C8_noise_continuity (worley : Int → Rat → Rat → Rat) (seed : Int)
    (j : Nat) (hj : j < CHUNK_SIZE_U32) :
    (biomes_noise worley ⟨1, 0, 0⟩ seed).get? (PanleShap.linearize (0, j)) =
      some (worley seed ((CHUNK_SIZE : Int) : Rat) (j : Rat)) ∧
    (combined_field worley seed).get? (CHUNK_SIZE_U32 + 2 * CHUNK_SIZE_U32 * j) =
      some (worley seed ((CHUNK_SIZE : Int) : Rat) (j : Rat)) ∧
    (biomes_noise worley ⟨1, 0, 0⟩ seed).get? (PanleShap.linearize (0, j)) =
      (combined_field worley seed).get? (CHUNK_SIZE_U32 + 2 * CHUNK_SIZE_U32 * j) ∧
    (biomes_noise worley ⟨0, 0, 0⟩ seed).get? (PanleShap.linearize (31, j)) =
      some (worley seed 31 (j : Rat)) ∧
    (combined_field worley seed).get? (31 + 2 * CHUNK_SIZE_U32 * j) =
      some (worley seed 31 (j : Rat)) ∧
    (biomes_noise worley ⟨0, 0, 0⟩ seed).get? (PanleShap.linearize (31, j)) =
      (combined_field worley seed).get? (31 + 2 * CHUNK_SIZE_U32 * j) := by
  have e1 : (biomes_noise worley ⟨1, 0, 0⟩ seed).get? (PanleShap.linearize (0, j)) =
      some (worley seed ((CHUNK_SIZE : Int) : Rat) (j : Rat)) := by
    have hi : PanleShap.linearize (0, j) < CHUNK_SIZE_U32 * CHUNK_SIZE_U32 := by
      simp only [PanleShap.linearize, linearize2, CHUNK_SIZE_U32] at hj ⊢
      omega
    rw [biomes_noise_get worley ⟨1, 0, 0⟩ seed _ hi]
    have hm : PanleShap.linearize (0, j) % CHUNK_SIZE_U32 = 0 := by
      simp only [PanleShap.linearize, linearize2]
      simp
    have hd : PanleShap.linearize (0, j) / CHUNK_SIZE_U32 = j := by
      simp only [PanleShap.linearize, linearize2, CHUNK_SIZE_U32]
      rw [Nat.zero_add, Nat.mul_div_cancel_left _ (by norm_num)]
    rw [hm, hd]
    norm_num [CHUNK_SIZE]
  have e2 : (combined_field worley seed).get?
        (CHUNK_SIZE_U32 + 2 * CHUNK_SIZE_U32 * j) =
      some (worley seed ((CHUNK_SIZE : Int) : Rat) (j : Rat)) := by
    have hi : CHUNK_SIZE_U32 + 2 * CHUNK_SIZE_U32 * j <
        2 * CHUNK_SIZE_U32 * CHUNK_SIZE_U32 := by
      simp only [CHUNK_SIZE_U32] at hj ⊢
      omega
    unfold combined_field
    rw [planeMapBuild_get _ _ _ _ _ _ _ _ hi]
    have hm : (CHUNK_SIZE_U32 + 2 * CHUNK_SIZE_U32 * j) % (2 * CHUNK_SIZE_U32) =
        CHUNK_SIZE_U32 := by
      rw [Nat.add_mul_mod_self_left]
      simp [CHUNK_SIZE_U32]
    have hd : (CHUNK_SIZE_U32 + 2 * CHUNK_SIZE_U32 * j) / (2 * CHUNK_SIZE_U32) = j := by
      rw [Nat.add_mul_div_left _ _ (by simp [CHUNK_SIZE_U32])]
      simp [CHUNK_SIZE_U32]
    rw [hm, hd]
    norm_num [CHUNK_SIZE, CHUNK_SIZE_U32]
  have e3 : (biomes_noise worley ⟨0, 0, 0⟩ seed).get? (PanleShap.linearize (31, j)) =
      some (worley seed 31 (j : Rat)) := by
    have hi : PanleShap.linearize (31, j) < CHUNK_SIZE_U32 * CHUNK_SIZE_U32 := by
      simp only [PanleShap.linearize, linearize2, CHUNK_SIZE_U32] at hj ⊢
      omega
    rw [biomes_noise_get worley ⟨0, 0, 0⟩ seed _ hi]
    have hm : PanleShap.linearize (31, j) % CHUNK_SIZE_U32 = 31 := by
      simp only [PanleShap.linearize, linearize2, CHUNK_SIZE_U32]
      rw [Nat.add_mul_mod_self_left]
    have hd : PanleShap.linearize (31, j) / CHUNK_SIZE_U32 = j := by
      simp only [PanleShap.linearize, linearize2, CHUNK_SIZE_U32]
      rw [Nat.add_mul_div_left _ _ (by norm_num)]
      norm_num
    rw [hm, hd]
    norm_num [CHUNK_SIZE]
  have e4 : (combined_field worley seed).get? (31 + 2 * CHUNK_SIZE_U32 * j) =
      some (worley seed 31 (j : Rat)) := by
    have hi : 31 + 2 * CHUNK_SIZE_U32 * j < 2 * CHUNK_SIZE_U32 * CHUNK_SIZE_U32 := by
      simp only [CHUNK_SIZE_U32] at hj ⊢
      omega
    unfold combined_field
    rw [planeMapBuild_get _ _ _ _ _ _ _ _ hi]
    have hm : (31 + 2 * CHUNK_SIZE_U32 * j) % (2 * CHUNK_SIZE_U32) = 31 := by
      rw [Nat.add_mul_mod_self_left]
      simp [CHUNK_SIZE_U32]
    have hd : (31 + 2 * CHUNK_SIZE_U32 * j) / (2 * CHUNK_SIZE_U32) = j := by
      rw [Nat.add_mul_div_left _ _ (by simp [CHUNK_SIZE_U32])]
      simp [CHUNK_SIZE_U32]
    rw [hm, hd]
    norm_num [CHUNK_SIZE, CHUNK_SIZE_U32]
  exact ⟨e1, e2, e1.trans e2.symm, e3, e4, e3.trans e4.symm⟩

/-- Witness for C8 at row 0 of the shared boundary. -/
theorem C8_noise_continuity_witness :
    (biomes_noise (fun _ x z => x + z) ⟨1, 0, 0⟩ 5).get?
        (PanleShap.linearize (0, 0)) =
      (combined_field (fun _ x z => x + z) 5).get?
        (CHUNK_SIZE_U32 + 2 * CHUNK_SIZE_U32 * 0) :=
  (C8_noise_continuity (fun _ x z => x + z) 5 0 (by decide)).2.2.1

/-- C10: the attribute field ignores the vertical component — any two
chunk keys agreeing on x and z produce identical noise fields for every
seed; and within one generation pass, two surface indices lying in the
same (x, z) column read the same attribute value and hence select the
same biome variant, whatever their local y. -/
theorem C10_y_independence :
    (∀ (worley : Int → Rat → Rat → Rat) (seed : Int) (k k2 : ChunkKey),
        k.x = k2.x → k.z = k2.z →
        biomes_noise worley k seed = biomes_noise worley k2 seed) ∧
    (∀ (noise : List Rat) (i1 i2 : Nat),
        (SampleShape.delinearize i1).1 = (SampleShape.delinearize i2).1 →
        (SampleShape.delinearize i1).2.2 = (SampleShape.delinearize i2).2.2 →
        column_attr noise i1 = column_attr noise i2 ∧
        get_generator_by_atrr (column_attr noise i1) =
          get_generator_by_atrr (column_attr noise i2)) := by
  constructor
  · intro worley seed k k2 hx hz
    obtain ⟨kx, ky, kz⟩ := k
    obtain ⟨kx2, ky2, kz2⟩ := k2
    simp only at hx hz
    subst hx; subst hz
    rfl
  · intro noise i1 i2 hx hz
    have hattr : column_attr noise i1 = column_attr noise i2 := by
      unfold column_attr
      rw [hx, hz]
    exact ⟨hattr, by rw [hattr]⟩

/-- Witness for C10: chunk keys differing only in y, and two surface
indices of the same column differing only in local y. -/
theorem C10_y_independence_witness :
    biomes_noise (fun s x z => (s : Rat) + x + z) ⟨4, 0, 6⟩ 9 =
      biomes_noise (fun s x z => (s : Rat) + x + z) ⟨4, 5, 6⟩ 9 ∧
    column_attr [1, 2, 3] 5 = column_attr [1, 2, 3] (5 + 32 * 7) ∧
    get_generator_by_atrr (column_attr [1, 2, 3] 5) =
      get_generator_by_atrr (column_attr [1, 2, 3] (5 + 32 * 7)) :=
  ⟨C10_y_independence.1 (fun s x z => (s : Rat) + x + z) 9 ⟨4, 0, 6⟩ ⟨4, 5, 6⟩
      rfl rfl,
   (C10_y_independence.2 [1, 2, 3] 5 (5 + 32 * 7) (by decide) (by decide)).1,
   (C10_y_independence.2 [1, 2, 3] 5 (5 + 32 * 7) (by decide) (by decide)).2⟩
